import Mathlib

/-!
Verification of the resumable GPU/CUDA installation orchestrator
(`linux/cuda_installer`): a shallow embedding of the checkpoint decorator,
the command runner, the artifact fetcher, the mode/branch consistency guard,
the CUDA verification routine and the driver-installation control flow,
with theorems settling the specified properties.
-/

namespace CudaInstaller

/-! ### Python-modelling string helpers -/

/-- Truthiness of a Python string: non-empty strings are truthy. -/
def pyTruthy (s : String) : Bool := s ≠ ""

/-- Python's `pat in s` substring test, via infix of character lists. -/
def containsSub (s pat : String) : Bool := decide (pat.data <:+: s.data)

/-- Characters Python's `str.strip()` removes. -/
def isPySpace (c : Char) : Bool :=
  c = ' ' || c = '\t' || c = '\n' || c = '\r' || c = '\x0b' || c = '\x0c'

/-- Python's `s.strip()`: drop leading and trailing whitespace. -/
def pyStrip (s : String) : String :=
  ⟨((s.data.dropWhile isPySpace).reverse.dropWhile isPySpace).reverse⟩

/-- Everything before the first occurrence of `c`. -/
def takeUntilChar (c : Char) : List Char → List Char
  | [] => []
  | x :: xs => if x = c then [] else x :: takeUntilChar c xs

/-- The characters after the first `"://"`, if any. -/
def afterSchemeSep : List Char → Option (List Char)
  | ':' :: '/' :: '/' :: rest => some rest
  | _ :: xs => afterSchemeSep xs
  | [] => none

/-- The characters after the first `'/'`, if any. -/
def afterFirstSlash : List Char → Option (List Char)
  | [] => none
  | '/' :: xs => some xs
  | _ :: xs => afterFirstSlash xs

/-- The characters after the last `'/'` (the whole list when there is no
slash): Python's `path.split("/")[-1]`. -/
def lastSegmentAux (cur : List Char) : List Char → List Char
  | [] => cur.reverse
  | x :: xs => if x = '/' then lastSegmentAux [] xs else lastSegmentAux (x :: cur) xs

def lastSegment (l : List Char) : List Char := lastSegmentAux [] l

/-- Last segment of the URL path, as computed by
`urllib.parse.urlparse(url).path.split("/")[-1]` in `download_file`:
the fragment (after the first `#`) and query (after the first `?`) are not
part of the path; with a scheme separator present, the netloc (up to the
first slash after `"://"`) is skipped, and an absent path yields `""`. -/
def filenameOf (url : String) : String :=
  let noFrag := takeUntilChar '#' url.data
  let noQuery := takeUntilChar '?' noFrag
  match afterSchemeSep noQuery with
  | some hostAndPath =>
      match afterFirstSlash hostAndPath with
      | some path => ⟨lastSegment path⟩
      | none => ""
  | none => ⟨lastSegment noQuery⟩

/-! ### Checkpoint decorator (`decorators.py`, `checkpoint_decorator`)

The wrapper checks whether the marker file `INSTALLER_DIR / file_name`
exists; if so it logs the skip message and returns. Otherwise it runs the
action. A `RebootRequired` raised by the action is remembered; any other
exception propagates immediately. Then the marker file is written, and the
remembered `RebootRequired` is re-raised.

We model the set of existing marker files as a list of file names and an
action by its observable outcome. -/

/-- Outcome of running a checkpointed step's underlying action. -/
inductive ActionOutcome where
  | completed
  | rebootSignal
  | failed (msg : String)
deriving DecidableEq

/-- Observable outcome of the checkpoint wrapper itself. -/
inductive WrapperOutcome where
  | skipped
  | returned
  | raisedReboot
  | raisedError (msg : String)
deriving DecidableEq

/-- `checkpoint_decorator(file_name, skip_message)` applied to an action,
then invoked: returns the new set of marker files and the wrapper outcome.
Mirrors `decorators.py` lines 26-42: marker present ⇒ skip; action raises
`RebootRequired` ⇒ remember, write marker, re-raise; action raises another
exception ⇒ propagate before the marker is written; action completes ⇒
write marker and return. -/
def wrapperRun (fileName : String) (markers : List String) (action : ActionOutcome) :
    List String × WrapperOutcome :=
  if markers.contains fileName then
    (markers, .skipped)
  else
    match action with
    | .completed => (fileName :: markers, .returned)
    | .rebootSignal => (fileName :: markers, .raisedReboot)
    | .failed msg => (markers, .raisedError msg)

/-- Outcome of `DebianInstaller._install_prerequisites`'s body
(`debian.py`): the `apt-get`/`apt-cache` commands run with `check=True`,
so a failing command raises a `SubprocessError`; otherwise the body ends
with an unconditional `raise RebootRequired`. -/
def debianPrereqOutcome (aptOk : Bool) : ActionOutcome :=
  if aptOk then .rebootSignal else .failed "Command exited with non-zero code"

/-! ### Command runner (`LinuxInstaller.run`)

One execution of the child process is modelled by an `Attempt`: its exit
code and the captured stdout/stderr (the lines drained by `capture_comms`,
joined with newlines; the per-attempt `stdout.clear()` means only the final
attempt's output survives). The behaviour of the command across repeated
executions is a function from the attempt index to its `Attempt`. -/

/-- One execution of the command: exit code and captured output. -/
structure Attempt where
  returncode : Int
  stdout : String
  stderr : String
deriving DecidableEq

/-- Result of `run`: either the returned `CompletedProcess` data or the
raised `subprocess.SubprocessError`. -/
inductive RunResult where
  | ok (r : Attempt)
  | raisedSubprocessError (msg : String)
deriving DecidableEq

/-- The message of the `SubprocessError` raised by `run` with `check`. -/
def subprocessErrMsg : String := "Command exited with non-zero code"

/-- What one call of `run` produces: how many times the command was
executed, what (if anything) was written to the error log just before
raising, and the result. -/
structure RunOutput where
  execCount : Nat
  loggedError : Option (String × String)
  result : RunResult
deriving DecidableEq

/-- The retry loop of `run` (`while try_count <= retries`): execute the
command; exit code 0 breaks the loop; otherwise `try_count` is incremented
and, if the budget is not exhausted, the whole command is executed again
from scratch. Returns the number of executions performed and the final
attempt. -/
def runLoop (behavior : Nat → Attempt) (attempt remaining : Nat) : Nat × Attempt :=
  let r := behavior attempt
  if r.returncode = 0 then (attempt + 1, r)
  else
    match remaining with
    | 0 => (attempt + 1, r)
    | n + 1 => runLoop behavior (attempt + 1) n

/-- `LinuxInstaller.run(command, check, ..., retries)` (lines 473-531):
run the retry loop; afterwards, if `check` and the final exit code is
non-zero, log the captured stdout and stderr at error level and raise
`SubprocessError("Command exited with non-zero code")`; otherwise return a
`CompletedProcess` with the final exit code and captured output. -/
def run (behavior : Nat → Attempt) (check : Bool) (retries : Nat) : RunOutput :=
  let nr := runLoop behavior 0 retries
  if check ∧ nr.2.returncode ≠ 0 then
    ⟨nr.1, some (nr.2.stdout, nr.2.stderr), .raisedSubprocessError subprocessErrMsg⟩
  else
    ⟨nr.1, none, .ok nr.2⟩

/-! ### Mode/branch consistency guard (`LinuxInstaller.assert_correct_mode`)

The persisted configuration is the content of the file
`INSTALLER_DIR / "mode"`, modelled as `Option String` (`none` when the
file does not exist). -/

/-- The `RuntimeError` message rejecting `repo`-mode installation of the
`lts` branch. -/
def ltsErrMsg : String :=
  "The LTS driver branch is supported only in binary installation mode. " ++
  "Please use --installation-mode=binary and --installation-branch=lts to install " ++
  "LTS driver branch."

/-- The string that the final statement of `assert_correct_mode` asserts.
The Python source reads `assert f"You have to use {prev_mode} in this system."`:
the asserted expression is the f-string itself, so the assert checks this
string's truthiness (not `False` with a message). -/
def conflictAssertMsg (prevMode : String) : String :=
  "You have to use " ++ prevMode ++ " in this system."

/-- How a call of `assert_correct_mode` terminates. -/
inductive ModeOutcome where
  | ok
  | raisedRuntime (msg : String)
  | raisedAssertion
deriving DecidableEq

/-- Result of `assert_correct_mode`: the resulting content of the mode
file, how the call terminated, and whether the configuration-conflict
message was written to the error log. -/
structure ModeResult where
  persisted : Option String
  outcome : ModeOutcome
  loggedConflict : Bool
deriving DecidableEq

/-- `LinuxInstaller.assert_correct_mode(mode, branch)` (lines 723-755).
Statement order follows the source: the two membership asserts, the
`repo`+`lts` `RuntimeError`, first-run persistence, comparison of
`prev_mode = mode_file.read_text().strip()` with `f"{mode} {branch}"`, and
on mismatch `logger.error(...)` followed by
`assert f"You have to use {prev_mode} in this system."` — an assert of a
non-empty string, which always passes, so the function returns normally. -/
def assert_correct_mode (persisted : Option String) (mode branch : String) : ModeResult :=
  let modeText := mode ++ " " ++ branch
  if ¬ (mode = "binary" ∨ mode = "repo") then ⟨persisted, .raisedAssertion, false⟩
  else if ¬ (branch = "prod" ∨ branch = "nfb" ∨ branch = "lts") then
    ⟨persisted, .raisedAssertion, false⟩
  else if mode = "repo" ∧ branch = "lts" then ⟨persisted, .raisedRuntime ltsErrMsg, false⟩
  else
    match persisted with
    | none => ⟨some modeText, .ok, false⟩
    | some content =>
        let prevMode := pyStrip content
        if prevMode = modeText then ⟨persisted, .ok, false⟩
        else if pyTruthy (conflictAssertMsg prevMode) then ⟨persisted, .ok, true⟩
        else ⟨persisted, .raisedAssertion, true⟩

/-! ### Artifact fetcher (`LinuxInstaller.download_file`)

State: the set of filenames present in the working directory, the
process-lifetime `_file_download_verified` set of URLs, and the trace of
commands executed through `run` (file paths are modelled by the derived
filename; the working directory is fixed for one call sequence). The
environment fixes the observable behaviour of the external commands:
whether `which gsutil` succeeds, whether the download commands succeed,
and the hash `sha256sum` reports for each on-disk file. -/

structure FetchEnv where
  gsutilAvailable : Bool
  gsutilCpOk : Bool
  curlOk : Bool
  hashOf : String → String

structure FetchState where
  disk : List String
  verified : List String
  trace : List String
deriving DecidableEq

/-- The `RuntimeError` message raised on a checksum mismatch; the two
adjacent f-strings of the source concatenate without a separator. -/
def checksumErrMsg (filePath : String) : String :=
  "The installer file checksum does not match. Won't continue installation." ++
  "Try deleting " ++ filePath ++ " and trying again."

/-- Tail of `download_file` after the file is on disk: run
`sha256sum <file>`, compare the reported hash with `sha256sum`; on
mismatch raise the checksum `RuntimeError`; on match add the URL to the
verified set and return the path. -/
def hashAndFinish (env : FetchEnv) (st : FetchState) (url sha256sum filename : String) :
    FetchState × Except String String :=
  let st₁ : FetchState := {st with trace := st.trace ++ ["sha256sum " ++ filename]}
  let checksum := env.hashOf filename
  if checksum ≠ sha256sum then (st₁, .error (checksumErrMsg filename))
  else ({st₁ with verified := url :: st₁.verified}, .ok filename)

/-- `LinuxInstaller.download_file(url, sha256sum, gs_uri)` (lines 621-655):
derive the filename from the URL; if the file exists and the URL was
already verified this run, return immediately; otherwise probe
`which gsutil`, download the file if missing (via `gsutil cp` when gsutil
is available and a truthy `gs_uri` was given, else `curl`, both with
`check=True` so a download failure raises), then hash and verify. -/
def download_file (env : FetchEnv) (st : FetchState) (url sha256sum : String)
    (gsUri : Option String) : FetchState × Except String String :=
  let filename := filenameOf url
  if st.disk.contains filename && st.verified.contains url then (st, .ok filename)
  else
    let st₁ : FetchState := {st with trace := st.trace ++ ["which gsutil"]}
    if st.disk.contains filename then
      hashAndFinish env st₁ url sha256sum filename
    else if env.gsutilAvailable && (gsUri.map pyTruthy).getD false then
      let st₂ : FetchState := {st₁ with trace := st₁.trace ++ ["gsutil cp " ++ gsUri.getD "" ++ " ."]}
      if env.gsutilCpOk then
        hashAndFinish env {st₂ with disk := filename :: st₂.disk} url sha256sum filename
      else (st₂, .error subprocessErrMsg)
    else
      let st₂ : FetchState := {st₁ with trace := st₁.trace ++ ["curl -fSsL -O " ++ url]}
      if env.curlOk then
        hashAndFinish env {st₂ with disk := filename :: st₂.disk} url sha256sum filename
      else (st₂, .error subprocessErrMsg)

/-! ### CUDA verification (`LinuxInstaller.verify_cuda`, lines 399-445)

The routine downloads the samples bundle, unpacks it with `tar` (default
`check=True`), runs `cmake .` with `check=False` (exit code ignored), then
for each of `deviceQuery` and `bandwidthTest` runs `make` and the program
itself with `check=True` and tests whether the captured stdout contains
`"Result = PASS"`. The environment fixes the outcome of each external
step. -/

deriving instance DecidableEq for Except

structure VerifyEnv where
  samplesDownload : Except String String
  tarRc : Int
  cmakeRc : Int
  makeDevRc : Int
  devQueryRc : Int
  devQueryOut : String
  makeBandRc : Int
  bandRc : Int
  bandOut : String
deriving DecidableEq

/-- The sentinel the sample programs print on success. -/
def resultPass : String := "Result = PASS"

/-- `LinuxInstaller.verify_cuda()`: `Except.error m` models an exception
escaping the call (from `download_file` or a `check=True` command),
`Except.ok b` the returned boolean. `cmakeRc` is deliberately unused: the
`cmake .` invocation passes `check=False` and its result is dropped. -/
def verify_cuda (env : VerifyEnv) : Except String Bool :=
  match env.samplesDownload with
  | .error m => .error m
  | .ok _ =>
      if env.tarRc ≠ 0 then .error subprocessErrMsg
      else if env.makeDevRc ≠ 0 then .error subprocessErrMsg
      else if env.devQueryRc ≠ 0 then .error subprocessErrMsg
      else if containsSub env.devQueryOut resultPass = false then .ok false
      else if env.makeBandRc ≠ 0 then .error subprocessErrMsg
      else if env.bandRc ≠ 0 then .error subprocessErrMsg
      else if containsSub env.bandOut resultPass = false then .ok false
      else .ok true

/-- Outcome of the CLI process for the `verify_cuda` command. -/
inductive CliOutcome where
  | exitCode (n : Nat)
  | crashed (msg : String)
deriving DecidableEq

/-- The `verify_cuda` dispatch in `__main__.py` (lines 333-338):
`sys.exit(0)` when `installer.verify_cuda()` returns `True`, `sys.exit(1)`
when it returns `False`; an exception escaping `verify_cuda` is uncaught
and crashes the process. -/
def mainVerifyCuda (env : VerifyEnv) : CliOutcome :=
  match verify_cuda env with
  | .ok true => .exitCode 0
  | .ok false => .exitCode 1
  | .error m => .crashed m

/-! ### Driver installation control flow (`LinuxInstaller.install_driver`,
lines 158-193)

System state: the mode file, the set of checkpoint markers, and a trace of
the privileged actions performed. The environment fixes the probes: the
result of `verify_driver()` at entry, the outcome of the distro's
`_install_prerequisites` body when it actually runs, and the result of the
`verify_driver()` re-probe after a binary install. Sub-steps that are
whole per-distro command sequences (`_add_nvidia_repo`,
`_repo_install_driver`, the binary installer run) are recorded as named
actions in the trace; their internals are irrelevant to the guard
behaviour proved here. -/

structure SysState where
  modeFile : Option String
  markers : List String
  actions : List String
deriving DecidableEq

structure InstallEnv where
  driverFunctional : Bool
  prereqAction : ActionOutcome
  driverFunctionalAfter : Bool
deriving DecidableEq

inductive InstallOutcome where
  | noop
  | rebooted
  | completed
  | failedInstall
  | raisedError (msg : String)
  | raisedAssertion
deriving DecidableEq

/-- `LinuxInstaller.install_driver(...)`: if `verify_driver()` reports the
driver functional, log and return immediately; else run
`assert_correct_mode`, then `_install_prerequisites()` (a checkpointed
step whose `RebootRequired` is caught and turned into `reboot()`), then
either the binary installation path (with the `verify_driver()` re-probe
and `lock_kernel_updates` on success) or the repo path
(`_add_nvidia_repo` + `_repo_install_driver`). -/
def install_driver (env : InstallEnv) (st : SysState) (mode branch : String)
    (ignoreNoGpu : Bool) : SysState × InstallOutcome :=
  if env.driverFunctional then (st, .noop)
  else
    let mres := assert_correct_mode st.modeFile mode branch
    let st₁ : SysState := {st with modeFile := mres.persisted}
    match mres.outcome with
    | .raisedRuntime msg => (st₁, .raisedError msg)
    | .raisedAssertion => (st₁, .raisedAssertion)
    | .ok =>
        let pr := wrapperRun "prerequisites" st₁.markers env.prereqAction
        let ranField : List String :=
          if pr.2 = WrapperOutcome.skipped then [] else ["install_prerequisites"]
        let st₂ : SysState :=
          {st₁ with markers := pr.1, actions := st₁.actions ++ ranField}
        match pr.2 with
        | .raisedReboot => ({st₂ with actions := st₂.actions ++ ["reboot"]}, .rebooted)
        | .raisedError msg => (st₂, .raisedError msg)
        | _ =>
            if mode = "binary" then
              let st₃ : SysState := {st₂ with
                actions := st₂.actions ++ ["download_driver_installer", "binary_install_driver"]}
              if env.driverFunctionalAfter || ignoreNoGpu then
                ({st₃ with actions := st₃.actions ++ ["lock_kernel_updates"]}, .completed)
              else (st₃, .failedInstall)
            else
              ({st₂ with actions := st₂.actions ++ ["add_nvidia_repo", "repo_install_driver"]},
                .completed)

/-! ### Concrete instances used by witnesses and counterexamples -/

/-- A command that exits 1 on its first two executions and 0 afterwards. -/
def failTwiceBehavior : Nat → Attempt := fun n =>
  if n < 2 then ⟨1, "simulated failure", "error output"⟩ else ⟨0, "simulated success", ""⟩

/-- A command that always fails, with one fixed captured output. -/
def loudFailA : Nat → Attempt := fun _ => ⟨1, "diagnostic output A", "error detail A"⟩

/-- A command that always fails, with a different captured output. -/
def loudFailB : Nat → Attempt := fun _ => ⟨1, "diagnostic output B", "error detail B"⟩

/-- Fetcher environment: no gsutil, downloads succeed, every on-disk file
hashes to `"h123"`. -/
def fetchEnvGood : FetchEnv := ⟨false, true, true, fun _ => "h123"⟩

/-- Fetcher environment whose files hash to a value that matches no
expectation used below. -/
def fetchEnvBadHash : FetchEnv := ⟨true, true, true, fun _ => "deadbeef"⟩

/-- A clean working directory: nothing on disk, nothing verified, no
commands executed yet. -/
def fetchStClean : FetchState := ⟨[], [], []⟩

def urlW : String := "https://host.example.com/downloads/pkg-1.0.run"

/-- The fetch state after one successful `download_file` of `urlW` from
`fetchStClean` under `fetchEnvGood`. -/
def fetchStAfter : FetchState :=
  ⟨["pkg-1.0.run"], [urlW],
    ["which gsutil", "curl -fSsL -O " ++ urlW, "sha256sum pkg-1.0.run"]⟩

/-- A `verify_cuda` environment in which everything works except that the
`./deviceQuery` reference program exits with code 1. -/
def devQueryFailEnv : VerifyEnv :=
  ⟨Except.ok "cuda-samples.tar.gz", 0, 0, 0, 1, "", 0, 0, "Result = PASS"⟩

/-- A `verify_cuda` environment in which every command exits 0 and both
reference programs report success. -/
def passEnv : VerifyEnv :=
  ⟨Except.ok "cuda-samples.tar.gz", 0, 0, 0, 0, "deviceQuery: Result = PASS", 0, 0,
    "bandwidthTest: Result = PASS"⟩

/-- Installer environment of a machine whose driver probe succeeds. -/
def installEnvDone : InstallEnv := ⟨true, ActionOutcome.completed, true⟩

/-- Installer environment of a fresh machine: driver not functional,
prerequisites step ends in the Reboot Signal (Debian behaviour). -/
def installEnvFresh : InstallEnv := ⟨false, debianPrereqOutcome true, true⟩

/-- A clean system state: no mode file, no markers, nothing done. -/
def sysStClean : SysState := ⟨none, [], []⟩

/-! ### Helper lemmas about the retry loop -/

/-! ### Helper lemmas about the retry loop -/

theorem runLoop_result (behavior : Nat → Attempt) :
    ∀ remaining attempt,
      (runLoop behavior attempt remaining).2
        = behavior ((runLoop behavior attempt remaining).1 - 1) := by
  intro remaining
  induction remaining with
  | zero =>
      intro attempt
      simp [runLoop]
  | succ n ih =>
      intro attempt
      simp only [runLoop]
      split
      · simp
      · exact ih (attempt + 1)

theorem runLoop_count_lower (behavior : Nat → Attempt) :
    ∀ remaining attempt, attempt + 1 ≤ (runLoop behavior attempt remaining).1 := by
  intro remaining
  induction remaining with
  | zero =>
      intro attempt
      simp [runLoop]
  | succ n ih =>
      intro attempt
      simp only [runLoop]
      split
      · simp
      · exact le_trans (by omega) (ih (attempt + 1))

theorem runLoop_count_upper (behavior : Nat → Attempt) :
    ∀ remaining attempt, (runLoop behavior attempt remaining).1 ≤ attempt + remaining + 1 := by
  intro remaining
  induction remaining with
  | zero =>
      intro attempt
      simp [runLoop]
  | succ n ih =>
      intro attempt
      simp only [runLoop]
      split
      · simp
      · calc (runLoop behavior (attempt + 1) n).1 ≤ attempt + 1 + n + 1 := ih (attempt + 1)
          _ = attempt + (n + 1) + 1 := by omega

theorem runLoop_earlier_fail (behavior : Nat → Attempt) :
    ∀ remaining attempt i, attempt ≤ i → i + 1 < (runLoop behavior attempt remaining).1 →
      (behavior i).returncode ≠ 0 := by
  intro remaining
  induction remaining with
  | zero =>
      intro attempt i hle hlt
      simp only [runLoop] at hlt
      split at hlt
      · omega
      · omega
  | succ n ih =>
      intro attempt i hle hlt
      simp only [runLoop] at hlt
      split at hlt
      · omega
      · rename_i hne
        rcases Nat.eq_or_lt_of_le hle with heq | hlt2
        · subst heq; exact hne
        · exact ih (attempt + 1) i hlt2 hlt

theorem runLoop_final (behavior : Nat → Attempt) :
    ∀ remaining attempt,
      (behavior ((runLoop behavior attempt remaining).1 - 1)).returncode = 0 ∨
        (runLoop behavior attempt remaining).1 = attempt + remaining + 1 := by
  intro remaining
  induction remaining with
  | zero =>
      intro attempt
      simp only [runLoop]
      split
      · rename_i h; left; simpa using h
      · right; simp
  | succ n ih =>
      intro attempt
      simp only [runLoop]
      split
      · rename_i h; left; simpa using h
      · rcases ih (attempt + 1) with h | h
        · left; exact h
        · right; omega

/-! ### Further helper lemmas -/

theorem run_execCount (behavior : Nat → Attempt) (check : Bool) (retries : Nat) :
    (run behavior check retries).execCount = (runLoop behavior 0 retries).1 := by
  simp only [run]
  split <;> rfl

theorem containsSub_append_self (a f b : String) : containsSub (a ++ f ++ b) f = true := by
  simp only [containsSub, decide_eq_true_eq]
  rw [String.data_append, String.data_append]
  exact List.infix_append a.data f.data b.data

theorem hashAndFinish_ok (env : FetchEnv) (st st' : FetchState) (url sha256sum f p : String)
    (h : hashAndFinish env st url sha256sum f = (st', Except.ok p)) :
    p = f ∧ st'.verified = url :: st.verified ∧ st'.disk = st.disk := by
  simp only [hashAndFinish] at h
  split at h
  · simp at h
  · obtain ⟨h₁, h₂⟩ := Prod.mk.injEq .. ▸ h
    refine ⟨by simpa using h₂.symm, ?_, ?_⟩
    · rw [← h₁]
    · rw [← h₁]

/-! ### Claim theorems -/

/-- C1 counterexample: on a clean checkpoint store, running the
`prerequisites` step whose action (the Debian prerequisites body, with the
package commands succeeding) raises the Reboot Signal leaves the step's
checkpoint marker PRESENT, refuting the claim that the marker file does
not exist after the wrapper re-raises the signal. -/
theorem checkpoint_reboot_marker_present :
    ¬ ((wrapperRun "prerequisites" [] (debianPrereqOutcome true)).1.contains "prerequisites"
        = false) := by decide

/-- C1 (amended): for every step guarded by the checkpoint mechanism, if
the action raises the Reboot Signal the wrapper writes the step's
checkpoint marker and then re-raises the signal upward; a subsequent
invocation of the same step therefore skips it instead of re-running it. -/
theorem checkpoint_reboot_marks_done (fileName : String) (markers : List String)
    (a : ActionOutcome) (h : markers.contains fileName = false) :
    wrapperRun fileName markers ActionOutcome.rebootSignal
      = (fileName :: markers, WrapperOutcome.raisedReboot) ∧
    wrapperRun fileName (fileName :: markers) a
      = (fileName :: markers, WrapperOutcome.skipped) := by
  have h' : fileName ∉ markers := by simpa using h
  constructor
  · simp [wrapperRun, h']
  · simp [wrapperRun]

/-- C1 witness: the amended theorem at the `prerequisites` step on a clean
store. -/
theorem checkpoint_reboot_marks_done_witness :
    wrapperRun "prerequisites" [] ActionOutcome.rebootSignal
      = ("prerequisites" :: [], WrapperOutcome.raisedReboot) ∧
    wrapperRun "prerequisites" ("prerequisites" :: []) ActionOutcome.completed
      = ("prerequisites" :: [], WrapperOutcome.skipped) :=
  checkpoint_reboot_marks_done "prerequisites" [] ActionOutcome.completed (by decide)

/-- C10: if a checkpointed step's action raises any exception other than
the Reboot Signal, the exception propagates to the caller and the
checkpoint marker is not created, so the step remains un-done. -/
theorem checkpoint_error_no_marker (fileName msg : String) (markers : List String)
    (h : markers.contains fileName = false) :
    wrapperRun fileName markers (ActionOutcome.failed msg)
      = (markers, WrapperOutcome.raisedError msg) := by
  have h' : fileName ∉ markers := by simpa using h
  simp [wrapperRun, h']

/-- C10 witness at a concrete step and error. -/
theorem checkpoint_error_no_marker_witness :
    wrapperRun "prerequisites" [] (ActionOutcome.failed "boom")
      = ([], WrapperOutcome.raisedError "boom") :=
  checkpoint_error_no_marker "prerequisites" "boom" [] (by decide)

/-- C2 (code bug evidence): with `"repo prod"` persisted, requesting
`(binary, prod)` makes `assert_correct_mode` log the configuration
conflict but RETURN NORMALLY (outcome `ok`), leaving the persisted
configuration unchanged: the final statement
`assert f"You have to use {prev_mode} in this system."` asserts a
non-empty string, which is always truthy, so no error is raised and the
caller proceeds in the conflicting mode. -/
theorem assert_correct_mode_conflict_returns_normally :
    assert_correct_mode (some "repo prod") "binary" "prod"
      = ⟨some "repo prod", ModeOutcome.ok, true⟩ := by decide

/-- C7: requesting `(repo, lts)` is rejected with the `RuntimeError`
describing the binary installation mode as the valid alternative, and this
happens before any persistence: whatever the persisted configuration was
(absent or present), it is returned unchanged. -/
theorem assert_correct_mode_rejects_repo_lts (persisted : Option String) :
    assert_correct_mode persisted "repo" "lts"
      = ⟨persisted, ModeOutcome.raisedRuntime ltsErrMsg, false⟩ ∧
    containsSub ltsErrMsg "binary" = true := by
  refine ⟨?_, by decide⟩
  simp [assert_correct_mode]

/-- C7 witness: the rejection on a clean system (no mode file). -/
theorem assert_correct_mode_rejects_repo_lts_witness :
    assert_correct_mode none "repo" "lts"
      = ⟨none, ModeOutcome.raisedRuntime ltsErrMsg, false⟩ ∧
    containsSub ltsErrMsg "binary" = true :=
  assert_correct_mode_rejects_repo_lts none

/-- C3: a command that fails twice and then succeeds, run with
`retries = 2` and `check = true`, reports success (exit code 0, no error
raised) after exactly three executions; in general the command is
re-executed from scratch while it keeps failing, for at most
`retries + 1` executions, stopping early exactly when an execution exits
0. -/
theorem run_retry_until_success (behavior : Nat → Attempt) (retries : Nat) :
    run failTwiceBehavior true 2
      = ⟨3, none, RunResult.ok ⟨0, "simulated success", ""⟩⟩ ∧
    1 ≤ (run behavior true retries).execCount ∧
    (run behavior true retries).execCount ≤ retries + 1 ∧
    (List.range ((run behavior true retries).execCount - 1)).all
        (fun i => decide ((behavior i).returncode ≠ 0)) = true ∧
    ((behavior ((run behavior true retries).execCount - 1)).returncode = 0 ∨
      (run behavior true retries).execCount = retries + 1) := by
  simp only [run_execCount]
  refine ⟨by decide, ?_, ?_, ?_, ?_⟩
  · simpa using runLoop_count_lower behavior retries 0
  · simpa using runLoop_count_upper behavior retries 0
  · rw [List.all_eq_true]
    intro i hi
    rw [List.mem_range] at hi
    have h1 := runLoop_count_lower behavior retries 0
    exact decide_eq_true (runLoop_earlier_fail behavior retries 0 i (Nat.zero_le i) (by omega))
  · simpa using runLoop_final behavior retries 0

/-- C3 witness: the retry contract at the fail-twice command with two
retries. -/
theorem run_retry_until_success_witness :
    run failTwiceBehavior true 2
      = ⟨3, none, RunResult.ok ⟨0, "simulated success", ""⟩⟩ ∧
    1 ≤ (run failTwiceBehavior true 2).execCount ∧
    (run failTwiceBehavior true 2).execCount ≤ 2 + 1 ∧
    (List.range ((run failTwiceBehavior true 2).execCount - 1)).all
        (fun i => decide ((failTwiceBehavior i).returncode ≠ 0)) = true ∧
    ((failTwiceBehavior ((run failTwiceBehavior true 2).execCount - 1)).returncode = 0 ∨
      (run failTwiceBehavior true 2).execCount = 2 + 1) :=
  run_retry_until_success failTwiceBehavior 2

/-- C6 counterexample: two always-failing commands with different captured
stdout and stderr raise exactly the same error value, so the raised
execution error does not carry the captured output; the output reaches
the operator only through the error log written just before the raise. -/
theorem run_error_payload_fixed :
    (run loudFailA true 0).result = (run loudFailB true 0).result ∧
    (run loudFailA true 0).result = RunResult.raisedSubprocessError subprocessErrMsg ∧
    (loudFailA 0).stdout ≠ (loudFailB 0).stdout ∧
    (loudFailA 0).stderr ≠ (loudFailB 0).stderr := by decide

/-- C6 (amended): when the final execution exits non-zero, `check = true`
logs the captured stdout and stderr at error level and raises the
distinguished `SubprocessError` with its fixed message (the error value
itself does not carry the output), while `check = false` raises nothing
and returns the result holding the non-zero exit code. -/
theorem run_check_semantics (behavior : Nat → Attempt) (retries : Nat)
    (h : (runLoop behavior 0 retries).2.returncode ≠ 0) :
    run behavior true retries
      = ⟨(runLoop behavior 0 retries).1,
          some ((runLoop behavior 0 retries).2.stdout, (runLoop behavior 0 retries).2.stderr),
          RunResult.raisedSubprocessError subprocessErrMsg⟩ ∧
    run behavior false retries
      = ⟨(runLoop behavior 0 retries).1, none, RunResult.ok (runLoop behavior 0 retries).2⟩ := by
  constructor
  · simp [run, h]
  · simp [run]

/-- C6 witness: the amended theorem at an always-failing command. -/
theorem run_check_semantics_witness :
    run loudFailA true 0
      = ⟨(runLoop loudFailA 0 0).1,
          some ((runLoop loudFailA 0 0).2.stdout, (runLoop loudFailA 0 0).2.stderr),
          RunResult.raisedSubprocessError subprocessErrMsg⟩ ∧
    run loudFailA false 0
      = ⟨(runLoop loudFailA 0 0).1, none, RunResult.ok (runLoop loudFailA 0 0).2⟩ :=
  run_check_semantics loudFailA 0 (by decide)

/-- C4: whenever the hash computed over the on-disk file differs from the
expected one (and the URL was not verified earlier in the process, so the
in-memory cache is not hit; the download commands themselves succeed),
`download_file` raises the integrity `RuntimeError` whose message names
the file path for manual removal, and the URL is not added to the
in-memory verified set. -/
theorem download_file_hash_mismatch (env : FetchEnv) (st : FetchState)
    (url sha256sum : String) (gsUri : Option String)
    (hhash : env.hashOf (filenameOf url) ≠ sha256sum)
    (hnv : st.verified.contains url = false)
    (hcurl : env.curlOk = true) (hgs : env.gsutilCpOk = true) :
    (download_file env st url sha256sum gsUri).2
        = Except.error (checksumErrMsg (filenameOf url)) ∧
    (download_file env st url sha256sum gsUri).1.verified = st.verified ∧
    containsSub (checksumErrMsg (filenameOf url)) (filenameOf url) = true := by
  have hnv2 : url ∉ st.verified := by simpa using hnv
  refine ⟨?_, ?_,
    containsSub_append_self
      ("The installer file checksum does not match. Won't continue installation." ++
        "Try deleting ") (filenameOf url) " and trying again."⟩ <;>
    (by_cases hd : filenameOf url ∈ st.disk <;>
      by_cases hg : env.gsutilAvailable = true ∧ (Option.map pyTruthy gsUri).getD false = true <;>
        simp [download_file, hashAndFinish, hd, hg, hnv2, hcurl, hgs, hhash])

set_option maxRecDepth 8000 in
/-- C4 witness: a wrong expected hash over a freshly downloaded file. -/
theorem download_file_hash_mismatch_witness :
    (download_file fetchEnvBadHash fetchStClean urlW "h123" none).2
        = Except.error (checksumErrMsg (filenameOf urlW)) ∧
    (download_file fetchEnvBadHash fetchStClean urlW "h123" none).1.verified
        = fetchStClean.verified ∧
    containsSub (checksumErrMsg (filenameOf urlW)) (filenameOf urlW) = true :=
  download_file_hash_mismatch fetchEnvBadHash fetchStClean urlW "h123" none
    (by decide) (by decide) rfl rfl

/-- C8: if a `download_file` call succeeded, calling it again in the same
process with the same URL is side-effect-free: the second call returns the
same local path from the in-memory cache with the state — including the
trace of executed commands — completely unchanged (no re-download, no
re-hashing). -/
theorem download_file_idempotent (env : FetchEnv) (st st' : FetchState)
    (url sha256sum p : String) (gsUri : Option String)
    (h : download_file env st url sha256sum gsUri = (st', Except.ok p)) :
    download_file env st' url sha256sum gsUri = (st', Except.ok p) := by
  have key : p = filenameOf url ∧ st'.disk.contains (filenameOf url) = true ∧
      st'.verified.contains url = true := by
    simp only [download_file] at h
    split at h
    · rename_i hcond
      simp only [Bool.and_eq_true] at hcond
      injection h with h₁ h₂
      injection h₂ with h₂
      subst h₁
      exact ⟨h₂.symm, hcond.1, hcond.2⟩
    · split at h
      · rename_i hdisk
        obtain ⟨hp, hv, hd⟩ := hashAndFinish_ok _ _ _ _ _ _ _ h
        refine ⟨hp, ?_, ?_⟩
        · rw [hd]; exact hdisk
        · rw [hv]; simp
      · split at h
        · split at h
          · obtain ⟨hp, hv, hd⟩ := hashAndFinish_ok _ _ _ _ _ _ _ h
            refine ⟨hp, ?_, ?_⟩
            · rw [hd]; simp
            · rw [hv]; simp
          · simp at h
        · split at h
          · obtain ⟨hp, hv, hd⟩ := hashAndFinish_ok _ _ _ _ _ _ _ h
            refine ⟨hp, ?_, ?_⟩
            · rw [hd]; simp
            · rw [hv]; simp
          · simp at h
  obtain ⟨hp, hdisk, hver⟩ := key
  subst hp
  have hdisk2 : filenameOf url ∈ st'.disk := by simpa using hdisk
  have hver2 : url ∈ st'.verified := by simpa using hver
  simp [download_file, hdisk2, hver2]

set_option maxRecDepth 8000 in
/-- C8 witness: re-requesting a URL downloaded and verified moments
before. -/
theorem download_file_idempotent_witness :
    download_file fetchEnvGood fetchStAfter urlW "h123" none
      = (fetchStAfter, Except.ok "pkg-1.0.run") :=
  download_file_idempotent fetchEnvGood fetchStClean fetchStAfter urlW "h123" "pkg-1.0.run"
    none (by decide)

/-- C5 counterexample: when the `./deviceQuery` reference program exits
with a non-zero code, `verify_cuda` does not return `false` — the
`check=True` execution raises a `SubprocessError` that escapes
`verify_cuda`, and the CLI dispatch crashes instead of exiting 1. -/
theorem verify_cuda_devquery_fail_crashes :
    verify_cuda devQueryFailEnv = Except.error subprocessErrMsg ∧
    mainVerifyCuda devQueryFailEnv = CliOutcome.crashed subprocessErrMsg ∧
    verify_cuda devQueryFailEnv ≠ Except.ok false ∧
    mainVerifyCuda devQueryFailEnv ≠ CliOutcome.exitCode 1 := by decide

/-- C5 (amended): when the sample download and the build/run commands all
succeed (exit 0), `verify_cuda` returns exactly the conjunction of the two
reference programs' outputs containing `"Result = PASS"`, and the CLI
exits 0 or 1 accordingly — a reference program that exits 0 without
reporting PASS is reported as a verification failure, not a crash; but a
non-zero exit of either reference program raises an execution error
instead of returning `false`. In every case `verify_cuda` returns `true`
only if both outputs report PASS. -/
theorem verify_cuda_outcome (env : VerifyEnv) (s : String)
    (hd : env.samplesDownload = Except.ok s) (ht : env.tarRc = 0) (hmd : env.makeDevRc = 0)
    (hdq : env.devQueryRc = 0) (hmb : env.makeBandRc = 0) (hbr : env.bandRc = 0) :
    verify_cuda env
      = Except.ok (containsSub env.devQueryOut resultPass &&
          containsSub env.bandOut resultPass) ∧
    mainVerifyCuda env
      = (if (containsSub env.devQueryOut resultPass &&
            containsSub env.bandOut resultPass) = true
         then CliOutcome.exitCode 0 else CliOutcome.exitCode 1) ∧
    (∀ e : VerifyEnv, verify_cuda e = Except.ok true →
      containsSub e.devQueryOut resultPass = true ∧
      containsSub e.bandOut resultPass = true) := by
  have h₁ : verify_cuda env
      = Except.ok (containsSub env.devQueryOut resultPass &&
          containsSub env.bandOut resultPass) := by
    unfold verify_cuda
    rw [hd]
    simp only [ht, hmd, hdq, hmb, hbr]
    cases hA : containsSub env.devQueryOut resultPass <;>
      cases hB : containsSub env.bandOut resultPass <;> simp
  refine ⟨h₁, ?_, ?_⟩
  · unfold mainVerifyCuda
    rw [h₁]
    cases hA : containsSub env.devQueryOut resultPass <;>
      cases hB : containsSub env.bandOut resultPass <;> simp
  · intro e he
    unfold verify_cuda at he
    split at he
    · exact absurd he (by simp)
    · split at he
      · exact absurd he (by simp)
      · split at he
        · exact absurd he (by simp)
        · split at he
          · exact absurd he (by simp)
          · split at he
            · exact absurd he (by simp)
            · split at he
              · exact absurd he (by simp)
              · split at he
                · exact absurd he (by simp)
                · split at he
                  · exact absurd he (by simp)
                  · constructor <;> simp_all

set_option maxRecDepth 4000 in
/-- C5 witness: a fully successful verification run. -/
theorem verify_cuda_outcome_witness :
    verify_cuda passEnv
      = Except.ok (containsSub passEnv.devQueryOut resultPass &&
          containsSub passEnv.bandOut resultPass) ∧
    mainVerifyCuda passEnv
      = (if (containsSub passEnv.devQueryOut resultPass &&
            containsSub passEnv.bandOut resultPass) = true
         then CliOutcome.exitCode 0 else CliOutcome.exitCode 1) ∧
    (∀ e : VerifyEnv, verify_cuda e = Except.ok true →
      containsSub e.devQueryOut resultPass = true ∧
      containsSub e.bandOut resultPass = true) :=
  verify_cuda_outcome passEnv "cuda-samples.tar.gz" rfl rfl rfl rfl rfl rfl

/-- C9: whenever the driver-functionality probe reports success at the
start of `install_driver`, the call is an immediate no-op: the system
state — mode file, checkpoint markers and performed actions — is returned
unchanged; consequently, after any first invocation, a second invocation
that observes a functional driver performs nothing, so installation
happens only once. -/
theorem install_driver_noop_idempotent (env env₂ : InstallEnv) (st : SysState)
    (mode branch : String) (ign ign₂ : Bool) (h : env₂.driverFunctional = true) :
    install_driver env₂ st mode branch ign₂ = (st, InstallOutcome.noop) ∧
    install_driver env₂ (install_driver env st mode branch ign).1 mode branch ign₂
      = ((install_driver env st mode branch ign).1, InstallOutcome.noop) := by
  have base : ∀ st₀ : SysState,
      install_driver env₂ st₀ mode branch ign₂ = (st₀, InstallOutcome.noop) := by
    intro st₀
    unfold install_driver
    rw [h]
    simp
  exact ⟨base st, base _⟩

/-- C9 witness: a fresh install followed by a second invocation that sees
the driver functional. -/
theorem install_driver_noop_idempotent_witness :
    install_driver installEnvDone sysStClean "repo" "prod" false
      = (sysStClean, InstallOutcome.noop) ∧
    install_driver installEnvDone
        (install_driver installEnvFresh sysStClean "repo" "prod" false).1 "repo" "prod" false
      = ((install_driver installEnvFresh sysStClean "repo" "prod" false).1,
          InstallOutcome.noop) :=
  install_driver_noop_idempotent installEnvFresh installEnvDone sysStClean "repo" "prod"
    false false rfl

end CudaInstaller
